import Mathlib

/-!
Shallow embedding of the afhf-housing-intake step forms (criminal history,
substance use, children, financial, health) and the validation / submit
behaviour each one implements, together with theorems settling the frozen
claims about that behaviour.
-/

namespace AfhfIntake

/-! ## A small regular-expression engine (Brzozowski derivatives)

Used to embed the JavaScript regex literals appearing in the zod schemas:
`currencyRegex` and the SSN pattern. -/

/-- Regular expressions over characters; `chr p` matches one character
satisfying `p`. -/
inductive RE where
  | emp : RE
  | eps : RE
  | chr (p : Char → Bool) : RE
  | cat (a b : RE) : RE
  | alt (a b : RE) : RE
  | star (a : RE) : RE

/-- Whether the regex accepts the empty string. -/
def nullable : RE → Bool
  | .emp => false
  | .eps => true
  | .chr _ => false
  | .cat a b => nullable a && nullable b
  | .alt a b => nullable a || nullable b
  | .star _ => true

/-- Brzozowski derivative of a regex by a character. -/
def rederiv : RE → Char → RE
  | .emp, _ => .emp
  | .eps, _ => .emp
  | .chr p, c => if p c then .eps else .emp
  | .cat a b, c =>
      if nullable a then .alt (.cat (rederiv a c) b) (rederiv b c)
      else .cat (rederiv a c) b
  | .alt a b, c => .alt (rederiv a c) (rederiv b c)
  | .star a, c => .cat (rederiv a c) (.star a)

/-- Full-string (anchored) regex match, as JavaScript `^...$.test`. -/
def reMatch (r : RE) (s : String) : Bool :=
  nullable (s.data.foldl rederiv r)

/-- Regex matching exactly the character `c`. -/
def chrEq (c : Char) : RE := RE.chr (fun x => x == c)

/-- JavaScript `\d`: an ASCII digit. -/
def digitRE : RE := RE.chr Char.isDigit

/-- JavaScript `\s` (ASCII part): whitespace characters. -/
def jsSpace : RE :=
  RE.chr (fun c => c == ' ' || c == '\t' || c == '\n' || c == '\r' ||
    c == '\u000B' || c == '\u000C')

/-- `r?`: zero or one occurrence. -/
def optRE (r : RE) : RE := RE.alt r RE.eps

/-- `\d{3}`: exactly three digits. -/
def digit3 : RE := RE.cat digitRE (RE.cat digitRE digitRE)

/-- `\d{1,3}`: one to three digits. -/
def digit13 : RE := RE.alt digitRE (RE.alt (RE.cat digitRE digitRE) digit3)

/-- The financial step's currency pattern from children.tsx line 336:
`^\$?\s*\d{1,3}(?:,?\d{3})*(?:\.\d{2})?$`. -/
def currencyRegex : RE :=
  RE.cat (optRE (chrEq '$'))
    (RE.cat (RE.star jsSpace)
      (RE.cat digit13
        (RE.cat (RE.star (RE.cat (optRE (chrEq ',')) digit3))
          (optRE (RE.cat (chrEq '.') (RE.cat digitRE digitRE))))))

/-- The children step's SSN pattern from children.tsx line 54:
`^\d{3}-\d{2}-\d{4}$`. -/
def ssnRegex : RE :=
  RE.cat digit3
    (RE.cat (chrEq '-')
      (RE.cat digitRE
        (RE.cat digitRE
          (RE.cat (chrEq '-')
            (RE.cat digitRE (RE.cat digitRE (RE.cat digitRE digitRE)))))))

/-! ## Validation issues and observable host calls -/

/-- A zod validation issue: the field path it is attached to and its message,
as produced by `ctx.addIssue` / the schema checks. -/
structure Issue where
  path : String
  message : String
deriving Repr, DecidableEq

/-- Observable calls a step's submit pipeline makes on its environment:
the wizard host callbacks, `alert`, and `toast`. -/
inductive HostCall where
  | updateData : HostCall
  | nextStep : HostCall
  | alert (msg : String) : HostCall
  | toast : HostCall
deriving Repr, DecidableEq

/-! ## Criminal history step (src/unnamed/part_000)

This step does not use zod: React Hook Form field rules (`register` with
`required`) provide inline validation, and `onSubmit` adds one manual
cross-field check that raises a browser `alert`.  The `id` key that
`useFieldArray` generates for UI tracking is omitted: it never influences
validation or submission. -/

/-- One entry of the dynamic charges list (type `CriminalCharge`,
part_000 lines 11-22, minus the UI-only `id`). -/
structure CriminalCharge where
  personName : String
  charge : String
  dateOfOffense : String
  outcome : String
  areTheyOnProbation : String
  probationOfficer : String
  lengthOfProbation : String
  startDate : String
  endDate : String
deriving Repr, DecidableEq

/-- The criminal-history draft (type `CriminalHistoryFormData`,
part_000 lines 24-28). -/
structure CriminalHistoryFormData where
  hasCriminalOffense : String
  charges : List CriminalCharge
  isWillingToBackgroundCheck : String
deriving Repr, DecidableEq

/-- Template for a new empty charge entry (`initialCharge`,
part_000 lines 87-91). -/
def initialCharge : CriminalCharge :=
  { personName := "", charge := "", dateOfOffense := "", outcome := ""
    areTheyOnProbation := "No", probationOfficer := "", lengthOfProbation := ""
    startDate := "", endDate := "" }

/-- Field-level validity of one rendered charge entry: `register` marks
personName, charge and outcome `required` (lines 144, 151, 164);
probationOfficer is `required` only while the probation-details block is
mounted, i.e. while that entry's `areTheyOnProbation` is "Yes" (lines
188-192).  dateOfOffense, lengthOfProbation, startDate and endDate are
registered without rules. -/
def ChargeEntryValid (c : CriminalCharge) : Prop :=
  c.personName ≠ "" ∧ c.charge ≠ "" ∧ c.outcome ≠ "" ∧
    (c.areTheyOnProbation = "Yes" → c.probationOfficer ≠ "")

instance (c : CriminalCharge) : Decidable (ChargeEntryValid c) := by
  unfold ChargeEntryValid; infer_instance

/-- Field-level validity of the whole criminal-history draft: the charge
inputs are mounted (hence validated) only while `hasCriminalOffense` is
"Yes" (conditional render at line 129). -/
def CriminalFieldsValid (d : CriminalHistoryFormData) : Prop :=
  d.hasCriminalOffense = "Yes" → ∀ c ∈ d.charges, ChargeEntryValid c

instance (d : CriminalHistoryFormData) : Decidable (CriminalFieldsValid d) := by
  unfold CriminalFieldsValid; infer_instance

/-- The message of the blocking alert in part_000 line 77. -/
def addOffenseAlert : String :=
  "Please click \"+ Add Offense\" to detail the criminal charges."

/-- The step's `onSubmit` handler (part_000 lines 73-84): one manual
cross-field check raising `alert` and returning early, otherwise
`updateData(currentStepData)` followed by `nextStep()`. -/
def criminalOnSubmit (d : CriminalHistoryFormData) : List HostCall :=
  if d.hasCriminalOffense = "Yes" ∧ d.charges.length = 0 then
    [HostCall.alert addOffenseAlert]
  else
    [HostCall.updateData, HostCall.nextStep]

/-- `form.handleSubmit(onSubmit)` (line 102): React Hook Form runs the
registered field rules first and only calls `onSubmit` when they all pass;
otherwise it surfaces inline field errors and makes no host call. -/
def criminalHandleSubmit (d : CriminalHistoryFormData) : List HostCall :=
  if CriminalFieldsValid d then criminalOnSubmit d else []

/-- The "+ Add Offense" button (line 223): `append(initialCharge)`,
never disabled. -/
def criminalAddClick (charges : List CriminalCharge) : List CriminalCharge :=
  charges ++ [initialCharge]

/-- The per-entry "Remove Charge" button (line 214): `remove(index)`. -/
def criminalRemoveClick (charges : List CriminalCharge) (i : Nat) :
    List CriminalCharge :=
  charges.eraseIdx i

/-- The heading rendered for each charge entry (line 139):
`Charge #{index + 1}`, computed from the map position. -/
def chargeHeadings (fields : List CriminalCharge) : List String :=
  fields.enum.map (fun p => "Charge #" ++ toString (p.1 + 1))

/-- Visibility of one entry's probation-details group (line 188):
rendered iff that entry's watched `areTheyOnProbation` is "Yes". -/
def probationDetailsVisible (c : CriminalCharge) : Bool :=
  c.areTheyOnProbation == "Yes"

/-- Visibility of every entry's probation-details group, in list order. -/
def chargeVisibilities (charges : List CriminalCharge) : List Bool :=
  charges.map probationDetailsVisible

/-- The probation radio group's `onValueChange` (line 172):
`form.setValue` on entry `i`'s `areTheyOnProbation` only. -/
def setChargeProbation (charges : List CriminalCharge) (i : Nat) (v : String) :
    List CriminalCharge :=
  match charges[i]? with
  | none => charges
  | some c => charges.set i { c with areTheyOnProbation := v }

/-! ## Substance-use history step (src/unnamed/part_001)

zod schema with `superRefine` conditional checks; `zodResolver` supersedes
the inline `register` options, so the stray `minLength`/`maxLength` on
`lastUseYear` (line 199) are inert.  Optional string fields are `Option
String`; JavaScript's `!x || x.trim() === ''` blank test becomes
`isBlank`. -/

/-- JavaScript `!amount || amount.trim() === ''` over an optional string:
the value is absent, or trimming the whitespace from both ends leaves
nothing — i.e. every character is whitespace. -/
def isBlank (o : Option String) : Bool :=
  match o with
  | none => true
  | some s => s.data.all (fun c => c.isWhitespace)

/-- The substance-use draft (`formSchema` of part_001, lines 27-44). -/
structure SubstanceUseHistoryFormData where
  hasSubstanceHistory : String
  substances : Option String
  lastUseMonth : Option String
  lastUseYear : Option String
  isCleanAndSober : String
  sobrietyPlan : Option String
  hasInpatientTreatment : String
  inpatientDetails : Option String
  hasSponsor : String
deriving Repr, DecidableEq

/-- A `z.enum(["Yes", "No"])` field check: one issue when the value is
outside the enum. -/
def enumYesNoIssues (path value : String) : List Issue :=
  if value = "Yes" ∨ value = "No" then [] else
    [{ path := path, message := "A selection is required." }]

/-- Base (pre-refinement) issues of the substance schema, in declaration
order of its four enum fields. -/
def substanceBaseIssues (d : SubstanceUseHistoryFormData) : List Issue :=
  enumYesNoIssues "hasSubstanceHistory" d.hasSubstanceHistory ++
  enumYesNoIssues "isCleanAndSober" d.isCleanAndSober ++
  enumYesNoIssues "hasInpatientTreatment" d.hasInpatientTreatment ++
  enumYesNoIssues "hasSponsor" d.hasSponsor

/-- The `superRefine` block of part_001 (lines 45-92), in source order:
substance-history details, then in-patient treatment, then sobriety plan. -/
def substanceRefineIssues (d : SubstanceUseHistoryFormData) : List Issue :=
  (if d.hasSubstanceHistory = "Yes" then
    (if isBlank d.substances then
      [{ path := "substances", message := "Please list the substance(s)." }] else []) ++
    (if isBlank d.lastUseMonth then
      [{ path := "lastUseMonth", message := "Month is required." }] else []) ++
    (if isBlank d.lastUseYear then
      [{ path := "lastUseYear", message := "Year is required." }] else [])
   else []) ++
  (if d.hasInpatientTreatment = "Yes" then
    (if isBlank d.inpatientDetails then
      [{ path := "inpatientDetails",
         message := "Please provide when and where treatment occurred." }] else [])
   else []) ++
  (if d.isCleanAndSober = "Yes" then
    (if isBlank d.sobrietyPlan then
      [{ path := "sobrietyPlan",
         message := "Please describe your plan to stay clean and sober." }] else [])
   else [])

/-- All issues the substance schema reports: zod skips `superRefine` when
the base object parse already failed. -/
def substanceIssues (d : SubstanceUseHistoryFormData) : List Issue :=
  let base := substanceBaseIssues d
  if base.isEmpty then substanceRefineIssues d else base

/-- `form.handleSubmit(onSubmit)` for the substance step: when the schema
passes, `onSubmit` (lines 117-132) fires a `toast` and nothing else —
it never calls `updateData` or `nextStep` (the component takes no such
props). -/
def substanceHandleSubmit (d : SubstanceUseHistoryFormData) : List HostCall :=
  if (substanceIssues d).isEmpty then [HostCall.toast] else []

/-- The `hasSubstanceHistory` radio's `onValueChange`
(`form.setValue`, lines 135-139): only that field changes. -/
def setHasSubstanceHistory (d : SubstanceUseHistoryFormData) (v : String) :
    SubstanceUseHistoryFormData :=
  { d with hasSubstanceHistory := v }

/-- Visibility of the substance-details block (line 172):
rendered iff the watched `hasSubstanceHistory` is "Yes". -/
def substanceDetailsVisible (d : SubstanceUseHistoryFormData) : Bool :=
  d.hasSubstanceHistory == "Yes"

/-! ## Children step (first component of src/app/sections/children.tsx)

zod schema over a dynamic array of child records; `onSubmit` (lines 76-91)
only fires a toast.  `birthday` is fed through `z.coerce.date()`, which
fails on `undefined` (the cleared state) and succeeds on the valid `Date`
the date input produces; it is modelled as an optional timestamp. -/

/-- One entry of the children array (children.tsx lines 51-58, minus the
UI-only `useFieldArray` id). -/
structure Child where
  name : String
  birthday : Option Int
  ssn : String
  gender : String
  race : String
  living : Bool
deriving Repr, DecidableEq

/-- The default entry appended by the "Add Child" button (line 277). -/
def defaultChild : Child :=
  { name := "", birthday := none, ssn := "", gender := "", race := "", living := false }

/-- Schema validity of one child entry: `name`, `race` are plain strings,
`birthday` must coerce to a valid date, `ssn` must match the SSN regex
(line 54), `gender` has `.min(1)` (line 55), `living` is a boolean. -/
def ChildValid (c : Child) : Prop :=
  c.birthday.isSome = true ∧ reMatch ssnRegex c.ssn = true ∧ 1 ≤ c.gender.length

instance (c : Child) : Decidable (ChildValid c) := by
  unfold ChildValid; infer_instance

/-- Schema validity of the whole children draft: an array of valid
entries; the empty array (the default value, line 66) passes. -/
def ChildrenValid (cs : List Child) : Prop :=
  ∀ c ∈ cs, ChildValid c

instance (cs : List Child) : Decidable (ChildrenValid cs) := by
  unfold ChildrenValid; infer_instance

/-- `form.handleSubmit(onSubmit)` for the children step: on schema success
`onSubmit` fires a toast only — no `updateData`, no `nextStep`. -/
def childrenHandleSubmit (cs : List Child) : List HostCall :=
  if ChildrenValid cs then [HostCall.toast] else []

/-- The "Add Child" button's `disabled` predicate (line 278):
`fields.length >= 5`. -/
def childrenAddDisabled (fields : List Child) : Bool :=
  fields.length ≥ 5

/-- A click on "Add Child": a disabled button does nothing, otherwise
`append(defaultChild)` (line 277). -/
def childrenAddClick (fields : List Child) : List Child :=
  if childrenAddDisabled fields then fields else fields ++ [defaultChild]

/-- The heading rendered for each child entry (line 113):
`Child {index + 1}`, computed from the map position. -/
def childHeadings (fields : List Child) : List String :=
  fields.enum.map (fun p => "Child " ++ toString (p.1 + 1))

/-! ## Financial step (second component of src/app/sections/children.tsx)

zod schema with per-source conditional `superRefine` checks over eight
checkbox/amount pairs; `onSubmit` (lines 416-431) only fires a toast. -/

/-- The eight income sources iterated by `incomeSources`
(children.tsx lines 324-333). -/
inductive IncomeSource where
  | childSupport : IncomeSource
  | alimony : IncomeSource
  | wages : IncomeSource
  | stipends : IncomeSource
  | SSI : IncomeSource
  | TCA : IncomeSource
  | helpFromFamilyFriends : IncomeSource
  | Other : IncomeSource
deriving Repr, DecidableEq

/-- The `incomeSources` array, in source order. -/
def incomeSources : List IncomeSource :=
  [.childSupport, .alimony, .wages, .stipends, .SSI, .TCA,
   .helpFromFamilyFriends, .Other]

/-- Each source's display label (used inside the required-amount message). -/
def sourceLabel : IncomeSource → String
  | .childSupport => "child support"
  | .alimony => "alimony"
  | .wages => "wages"
  | .stipends => "stipends"
  | .SSI => "SSI"
  | .TCA => "TCA"
  | .helpFromFamilyFriends => "help from family/friends"
  | .Other => "Other"

/-- Each source's amount-field path, `` `${name}_amount` ``. -/
def amountPath : IncomeSource → String
  | .childSupport => "childSupport_amount"
  | .alimony => "alimony_amount"
  | .wages => "wages_amount"
  | .stipends => "stipends_amount"
  | .SSI => "SSI_amount"
  | .TCA => "TCA_amount"
  | .helpFromFamilyFriends => "helpFromFamilyFriends_amount"
  | .Other => "Other_amount"

/-- The financial draft (`formSchema` of the financial component,
children.tsx lines 339-368). -/
structure FinancialFormData where
  totalMonthlyIncome : String
  childSupport_checked : Bool
  childSupport_amount : Option String
  alimony_checked : Bool
  alimony_amount : Option String
  wages_checked : Bool
  wages_amount : Option String
  stipends_checked : Bool
  stipends_amount : Option String
  SSI_checked : Bool
  SSI_amount : Option String
  TCA_checked : Bool
  TCA_amount : Option String
  helpFromFamilyFriends_checked : Bool
  helpFromFamilyFriends_amount : Option String
  Other_checked : Bool
  Other_amount : Option String
deriving Repr, DecidableEq

/-- `` data[`${name}_checked`] `` lookup inside the `superRefine` loop. -/
def checkedOf (d : FinancialFormData) : IncomeSource → Bool
  | .childSupport => d.childSupport_checked
  | .alimony => d.alimony_checked
  | .wages => d.wages_checked
  | .stipends => d.stipends_checked
  | .SSI => d.SSI_checked
  | .TCA => d.TCA_checked
  | .helpFromFamilyFriends => d.helpFromFamilyFriends_checked
  | .Other => d.Other_checked

/-- `` data[`${name}_amount`] `` lookup inside the `superRefine` loop. -/
def amountOf (d : FinancialFormData) : IncomeSource → Option String
  | .childSupport => d.childSupport_amount
  | .alimony => d.alimony_amount
  | .wages => d.wages_amount
  | .stipends => d.stipends_amount
  | .SSI => d.SSI_amount
  | .TCA => d.TCA_amount
  | .helpFromFamilyFriends => d.helpFromFamilyFriends_amount
  | .Other => d.Other_amount

/-- One iteration of the `superRefine` loop (children.tsx lines 372-391):
checked sources need a non-blank amount matching `currencyRegex`;
unchecked sources are not validated at all. -/
def sourceIssues (d : FinancialFormData) (s : IncomeSource) : List Issue :=
  if checkedOf d s then
    if isBlank (amountOf d s) then
      [{ path := amountPath s,
         message := "Amount for " ++ sourceLabel s ++ " is required." }]
    else if reMatch currencyRegex ((amountOf d s).getD "") then []
    else
      [{ path := amountPath s, message := "Must be a valid currency amount." }]
  else []

/-- Base (pre-refinement) issues: `totalMonthlyIncome` has `.min(1)` and
`.regex(currencyRegex)` (lines 340-343); zod string checks accumulate. -/
def financialBaseIssues (d : FinancialFormData) : List Issue :=
  (if d.totalMonthlyIncome.length < 1 then
    [{ path := "totalMonthlyIncome",
       message := "Monthly household income is required." }] else []) ++
  (if reMatch currencyRegex d.totalMonthlyIncome then [] else
    [{ path := "totalMonthlyIncome",
       message := "Must be a valid currency format (e.g., 1,500.00)" }])

/-- The full `superRefine` body: `incomeSources.forEach`, in order. -/
def financialRefineIssues (d : FinancialFormData) : List Issue :=
  (incomeSources.map (sourceIssues d)).flatten

/-- All issues the financial schema reports: zod skips `superRefine` when
the base object parse already failed. -/
def financialIssues (d : FinancialFormData) : List Issue :=
  let base := financialBaseIssues d
  if base.isEmpty then financialRefineIssues d else base

/-- Successful zod parse of the financial draft: zod applies no transform
here, so the parsed output is the input record. -/
def financialParse (d : FinancialFormData) : Option FinancialFormData :=
  if (financialIssues d).isEmpty then some d else none

/-- `form.handleSubmit(onSubmit)` for the financial step: on schema success
`onSubmit` fires a toast only — no `updateData`, no `nextStep`. -/
def financialHandleSubmit (d : FinancialFormData) : List HostCall :=
  if (financialIssues d).isEmpty then [HostCall.toast] else []

/-- A wages checkbox's `onCheckedChange` (`field.onChange`, line 480):
only the checked flag changes; the amount field keeps its draft value. -/
def setWagesChecked (d : FinancialFormData) (b : Bool) : FinancialFormData :=
  { d with wages_checked := b }

/-- Visibility of the wages amount input (line 490): rendered iff the
watched `wages_checked` is true. -/
def wagesAmountVisible (d : FinancialFormData) : Bool :=
  d.wages_checked

/-- A concrete financial draft for the C4 scenario: valid total income,
only the wages checkbox checked, wages amount as given. -/
def wagesDraft (amt : Option String) : FinancialFormData :=
  { totalMonthlyIncome := "2,000.00"
    childSupport_checked := false, childSupport_amount := none
    alimony_checked := false, alimony_amount := none
    wages_checked := true, wages_amount := amt
    stipends_checked := false, stipends_amount := none
    SSI_checked := false, SSI_amount := none
    TCA_checked := false, TCA_amount := none
    helpFromFamilyFriends_checked := false, helpFromFamilyFriends_amount := none
    Other_checked := false, Other_amount := none }

/-! ## Health step (src/unnamed/part_002)

zod schema with a dynamic chronic-illness array; a `useEffect` auto-appends
a first entry when the governing flag turns true on an empty list, and the
Remove button is only rendered while more than one entry exists.
`onSubmit` (lines 131-146) only fires a toast. -/

/-- One chronic-illness entry (part_002 lines 38-47, minus the UI-only
`useFieldArray` id). -/
structure ChronicIllness where
  type : String
  symptoms : String
  doctor : String
  medication : String
  takingMedsAsPrescribed : Bool
  isManageable : Bool
deriving Repr, DecidableEq

/-- An optional month/year pair (`lastDoctorAppointment` and friends). -/
structure MonthYear where
  month : Option String
  year : Option String
deriving Repr, DecidableEq

/-- An optional spouse/children coverage pair. -/
structure Coverage where
  spouse : Option Bool
  children : Option Bool
deriving Repr, DecidableEq

/-- The health draft (`formSchema` of part_002, lines 36-79). -/
structure HealthFormData where
  hasChronicIllness : Bool
  chronicIllnesses : List ChronicIllness
  hasPhysicalDisabilities : Bool
  physicalDisabilitiesExplanation : Option String
  hasHealthInsurance : Bool
  healthInsuranceType : Option String
  healthInsuranceCoverage : Option Coverage
  hasDentalInsurance : Bool
  dentalExamLastYear : Bool
  dentalInsuranceCoverage : Option Coverage
  hasRegularFamilyDoctor : Bool
  lastDoctorAppointment : Option MonthYear
  lastObGynExam : Option MonthYear
  mammogramStatus : Option String
  lastMammogram : Option MonthYear
  hasMentalIllness : Bool
  receivingMentalHealthTreatment : Option Bool
  mentalHealthTreatmentExplanation : Option String
deriving Repr, DecidableEq

/-- The default entry appended for a new chronic illness (part_002
lines 120-127 and 356-363). -/
def defaultIllness : ChronicIllness :=
  { type := "", symptoms := "", doctor := "", medication := ""
    takingMedsAsPrescribed := false, isManageable := false }

/-- Schema validity of one chronic-illness entry: the four string fields
have `.min(1)` (lines 40-43). -/
def IllnessValid (c : ChronicIllness) : Prop :=
  1 ≤ c.type.length ∧ 1 ≤ c.symptoms.length ∧ 1 ≤ c.doctor.length ∧
    1 ≤ c.medication.length

instance (c : ChronicIllness) : Decidable (IllnessValid c) := by
  unfold IllnessValid; infer_instance

/-- `z.enum(["yes", "no", "not-applicable"]).optional()` for
`mammogramStatus` (line 71). -/
def MammogramValid (o : Option String) : Prop :=
  o = none ∨ o = some "yes" ∨ o = some "no" ∨ o = some "not-applicable"

instance (o : Option String) : Decidable (MammogramValid o) := by
  unfold MammogramValid; infer_instance

/-- Schema validity of the whole health draft: every chronic-illness entry
valid, mammogram status within its enum; every other field is a plain or
optional boolean/string and always passes. -/
def HealthValid (d : HealthFormData) : Prop :=
  (∀ c ∈ d.chronicIllnesses, IllnessValid c) ∧ MammogramValid d.mammogramStatus

instance (d : HealthFormData) : Decidable (HealthValid d) := by
  unfold HealthValid; infer_instance

/-- `form.handleSubmit(onSubmit)` for the health step: on schema success
`onSubmit` fires a toast only — no `updateData`, no `nextStep`. -/
def healthHandleSubmit (d : HealthFormData) : List HostCall :=
  if HealthValid d then [HostCall.toast] else []

/-- The part of the health draft the chronic-illness list UI acts on:
the governing flag and the `useFieldArray` state. -/
structure HealthListState where
  hasChronicIllness : Bool
  fields : List ChronicIllness
deriving Repr, DecidableEq

/-- The `useEffect` of part_002 lines 118-129: after a render in which the
flag is true and the list is empty, append one default entry. -/
def healthEffect (s : HealthListState) : HealthListState :=
  if s.hasChronicIllness ∧ s.fields.length = 0 then
    { s with fields := s.fields ++ [defaultIllness] }
  else s

/-- Whether entry `i`'s Remove button is rendered (part_002 lines
204-219): the list UI is visible, `fields.length > 1`, and the entry
exists. -/
def removeRendered (s : HealthListState) (i : Nat) : Bool :=
  s.hasChronicIllness && decide (1 < s.fields.length) && decide (i < s.fields.length)

/-- User interactions with the chronic-illness list UI. -/
inductive HealthAction where
  | setChronic (b : Bool) : HealthAction
  | addClick : HealthAction
  | removeClick (i : Nat) : HealthAction
deriving Repr, DecidableEq

/-- The immediate effect of one interaction: the radio writes the flag
(lines 183-196); "Add Another Chronic Illness" (line 356) appends — it is
only rendered while the flag is true; a Remove click does nothing unless
that button is rendered. -/
def healthDispatch (s : HealthListState) : HealthAction → HealthListState
  | .setChronic b => { s with hasChronicIllness := b }
  | .addClick =>
      if s.hasChronicIllness then { s with fields := s.fields ++ [defaultIllness] }
      else s
  | .removeClick i =>
      if removeRendered s i then { s with fields := s.fields.eraseIdx i } else s

/-- One interaction followed by the re-render's `useEffect`. -/
def healthStep (s : HealthListState) (a : HealthAction) : HealthListState :=
  healthEffect (healthDispatch s a)

/-- The heading rendered for each chronic-illness entry (line 209):
`Chronic Illness {index + 1}`, computed from the map position. -/
def illnessHeadings (fields : List ChronicIllness) : List String :=
  fields.enum.map (fun p => "Chronic Illness " ++ toString (p.1 + 1))

/-! ## Shared `useFieldArray` operations and concrete drafts -/

/-- `useFieldArray`'s `append`: insert at the end. -/
def fieldArrayAppend {α : Type} (l : List α) (e : α) : List α :=
  l ++ [e]

/-- `useFieldArray`'s `remove(index)`: delete the entry at that position,
shifting later entries down. -/
def fieldArrayRemove {α : Type} (l : List α) (i : Nat) : List α :=
  l.eraseIdx i

/-- The substance form's `defaultValues` (part_001 lines 99-104). -/
def substanceDefaults : SubstanceUseHistoryFormData :=
  { hasSubstanceHistory := "No", substances := none, lastUseMonth := none
    lastUseYear := none, isCleanAndSober := "No", sobrietyPlan := none
    hasInpatientTreatment := "No", inpatientDetails := none, hasSponsor := "No" }

/-- The health form's `defaultValues` (part_002 lines 84-103). -/
def healthDefaults : HealthFormData :=
  { hasChronicIllness := false, chronicIllnesses := []
    hasPhysicalDisabilities := false, physicalDisabilitiesExplanation := some ""
    hasHealthInsurance := false, healthInsuranceType := some ""
    healthInsuranceCoverage := some { spouse := some false, children := some false }
    hasDentalInsurance := false, dentalExamLastYear := false
    dentalInsuranceCoverage := some { spouse := some false, children := some false }
    hasRegularFamilyDoctor := false
    lastDoctorAppointment := some { month := some "", year := some "" }
    lastObGynExam := some { month := some "", year := some "" }
    mammogramStatus := some "not-applicable"
    lastMammogram := some { month := some "", year := some "" }
    hasMentalIllness := false, receivingMentalHealthTreatment := some false
    mentalHealthTreatmentExplanation := some "" }

/-- A sample filled charge entry whose probation governing field is "No"
and whose probation-detail fields are all empty. -/
def sampleCharge : CriminalCharge :=
  { personName := "Jane Doe", charge := "Misdemeanor Theft"
    dateOfOffense := "", outcome := "Dismissed", areTheyOnProbation := "No"
    probationOfficer := "", lengthOfProbation := "", startDate := "", endDate := "" }

/-- A financial draft in which no checkbox is checked but a stale
non-currency string is left in an amount field. -/
def leftoverDraft : FinancialFormData :=
  { wagesDraft (some "not a number") with wages_checked := false }

/-! ## Shared helper lemmas -/

/-- With an empty charges list the registered field rules are vacuously
satisfied. -/
theorem criminalFieldsValid_of_empty (d : CriminalHistoryFormData)
    (he : d.charges = []) : CriminalFieldsValid d := by
  intro _ c hc
  rw [he] at hc
  cases hc

/-- Submitting the criminal step with governing "Yes" and an empty list
produces exactly the blocking alert. -/
theorem criminal_empty_trace (d : CriminalHistoryFormData)
    (hy : d.hasCriminalOffense = "Yes") (he : d.charges = []) :
    criminalHandleSubmit d = [HostCall.alert addOffenseAlert] := by
  unfold criminalHandleSubmit criminalOnSubmit
  rw [if_pos (criminalFieldsValid_of_empty d he),
    if_pos ⟨hy, by rw [he]; rfl⟩]

/-- Every issue produced by one iteration of the financial `superRefine`
loop is attached to that source's amount path. -/
theorem sourceIssues_path (d : FinancialFormData) (s : IncomeSource)
    (issue : Issue) (h : issue ∈ sourceIssues d s) :
    issue.path = amountPath s := by
  unfold sourceIssues at h
  split at h
  · split at h
    · rw [List.mem_singleton.mp h]
    · split at h
      · cases h
      · rw [List.mem_singleton.mp h]
  · cases h

/-- The `superRefine` loop skips an unchecked source entirely. -/
theorem sourceIssues_unchecked (d : FinancialFormData) (s : IncomeSource)
    (h : checkedOf d s = false) : sourceIssues d s = [] := by
  unfold sourceIssues
  rw [h]
  rfl

/-- The eight amount paths are pairwise distinct. -/
theorem amountPath_injective :
    ∀ s t : IncomeSource, amountPath s = amountPath t → s = t := by
  intro s t
  cases s <;> cases t <;> simp [amountPath]

/-- Every base issue of the financial schema is attached to
`totalMonthlyIncome`. -/
theorem financialBaseIssues_path (d : FinancialFormData) (issue : Issue)
    (h : issue ∈ financialBaseIssues d) :
    issue.path = "totalMonthlyIncome" := by
  unfold financialBaseIssues at h
  rw [List.mem_append] at h
  rcases h with h | h <;> split at h
  · rw [List.mem_singleton.mp h]
  · cases h
  · cases h
  · rw [List.mem_singleton.mp h]

/-- No amount path collides with the `totalMonthlyIncome` path. -/
theorem amountPath_ne_total (s : IncomeSource) :
    amountPath s ≠ "totalMonthlyIncome" := by
  cases s <;> simp [amountPath]

/-! ## Claims -/

/-- C1, counterexample: the claim says every step's valid submit calls
`updateData` then `nextStep` exactly once, but the substance-use step's
fully valid default draft submits successfully (its schema reports no
issue) and its handler only fires a toast — it never calls `updateData`
or `nextStep`. -/
theorem C1_counterexample :
    substanceIssues substanceDefaults = [] ∧
    substanceHandleSubmit substanceDefaults = [HostCall.toast] ∧
    HostCall.updateData ∉ substanceHandleSubmit substanceDefaults ∧
    HostCall.nextStep ∉ substanceHandleSubmit substanceDefaults := by
  decide

/-- C1, amended: only the criminal-history step calls `updateData` then
`nextStep`, each exactly once, on a submit in which every required field
and conditional rule is satisfied; the substance-use, children, financial
and health steps' submit handlers fire a toast and call neither
callback. -/
theorem C1_amended_submit_calls :
    (∀ d : CriminalHistoryFormData, CriminalFieldsValid d →
      ¬(d.hasCriminalOffense = "Yes" ∧ d.charges.length = 0) →
      criminalHandleSubmit d = [HostCall.updateData, HostCall.nextStep]) ∧
    (∀ d : SubstanceUseHistoryFormData, substanceIssues d = [] →
      substanceHandleSubmit d = [HostCall.toast]) ∧
    (∀ cs : List Child, ChildrenValid cs →
      childrenHandleSubmit cs = [HostCall.toast]) ∧
    (∀ d : FinancialFormData, financialIssues d = [] →
      financialHandleSubmit d = [HostCall.toast]) ∧
    (∀ d : HealthFormData, HealthValid d →
      healthHandleSubmit d = [HostCall.toast]) := by
  refine ⟨?_, ?_, ?_, ?_, ?_⟩
  · intro d hv hne
    unfold criminalHandleSubmit criminalOnSubmit
    rw [if_pos hv, if_neg hne]
  · intro d h
    unfold substanceHandleSubmit
    rw [h]
    rfl
  · intro cs h
    unfold childrenHandleSubmit
    rw [if_pos h]
  · intro d h
    unfold financialHandleSubmit
    rw [h]
    rfl
  · intro d h
    unfold healthHandleSubmit
    rw [if_pos h]

/-- C1, witness: the amended theorem evaluated on concrete valid drafts of
all five steps. -/
theorem C1_amended_submit_calls_witness :
    criminalHandleSubmit
        { hasCriminalOffense := "No", charges := [], isWillingToBackgroundCheck := "No" } =
      [HostCall.updateData, HostCall.nextStep] ∧
    substanceHandleSubmit substanceDefaults = [HostCall.toast] ∧
    childrenHandleSubmit [] = [HostCall.toast] ∧
    financialHandleSubmit (wagesDraft (some "1,500.00")) = [HostCall.toast] ∧
    healthHandleSubmit healthDefaults = [HostCall.toast] :=
  ⟨C1_amended_submit_calls.1 _ (by decide) (by decide),
   C1_amended_submit_calls.2.1 _ (by decide),
   C1_amended_submit_calls.2.2.1 _ (by decide),
   C1_amended_submit_calls.2.2.2.1 _ (by decide),
   C1_amended_submit_calls.2.2.2.2 _ (by decide)⟩

/-- C2: in the criminal-history step, a submitted draft with
`hasCriminalOffense = "Yes"` and an empty charges list passes the inline
field rules (so no inline field error is raised) and produces exactly the
blocking synchronous alert: `updateData` and `nextStep` are not called. -/
theorem C2_empty_charges_alert (d : CriminalHistoryFormData)
    (hy : d.hasCriminalOffense = "Yes") (he : d.charges = []) :
    criminalHandleSubmit d = [HostCall.alert addOffenseAlert] ∧
    CriminalFieldsValid d ∧
    HostCall.updateData ∉ criminalHandleSubmit d ∧
    HostCall.nextStep ∉ criminalHandleSubmit d := by
  have htrace := criminal_empty_trace d hy he
  refine ⟨htrace, criminalFieldsValid_of_empty d he, ?_, ?_⟩ <;>
    rw [htrace] <;> decide

/-- C2, witness: the theorem evaluated on the concrete offending draft. -/
theorem C2_empty_charges_alert_witness :
    criminalHandleSubmit
        { hasCriminalOffense := "Yes", charges := [], isWillingToBackgroundCheck := "No" } =
      [HostCall.alert addOffenseAlert] ∧
    CriminalFieldsValid
      { hasCriminalOffense := "Yes", charges := [], isWillingToBackgroundCheck := "No" } ∧
    HostCall.updateData ∉ criminalHandleSubmit
      { hasCriminalOffense := "Yes", charges := [], isWillingToBackgroundCheck := "No" } ∧
    HostCall.nextStep ∉ criminalHandleSubmit
      { hasCriminalOffense := "Yes", charges := [], isWillingToBackgroundCheck := "No" } :=
  C2_empty_charges_alert _ rfl rfl

/-- C3: in the criminal-history step, with governing "Yes" and an empty
charges list the submit is blocked (neither `updateData` nor `nextStep` is
called); with one entry whose person name, charge and outcome are filled
and whose `areTheyOnProbation` is "No", submit succeeds for every value of
the probation-detail fields (probationOfficer, lengthOfProbation,
startDate, endDate are left unconstrained in the entry), so none of them
is required. -/
theorem C3_criminal_scenario :
    (∀ d : CriminalHistoryFormData, d.hasCriminalOffense = "Yes" →
      d.charges = [] →
      HostCall.updateData ∉ criminalHandleSubmit d ∧
      HostCall.nextStep ∉ criminalHandleSubmit d) ∧
    (∀ (c : CriminalCharge) (w : String),
      c.personName ≠ "" → c.charge ≠ "" → c.outcome ≠ "" →
      c.areTheyOnProbation = "No" →
      criminalHandleSubmit
          { hasCriminalOffense := "Yes", charges := [c],
            isWillingToBackgroundCheck := w } =
        [HostCall.updateData, HostCall.nextStep]) := by
  constructor
  · intro d hy he
    rw [criminal_empty_trace d hy he]
    exact ⟨by decide, by decide⟩
  · intro c w h1 h2 h3 hno
    have hv : CriminalFieldsValid
        { hasCriminalOffense := "Yes", charges := [c],
          isWillingToBackgroundCheck := w } := by
      intro _ c' hc'
      rw [List.mem_singleton] at hc'
      subst hc'
      refine ⟨h1, h2, h3, fun hyes => ?_⟩
      rw [hno] at hyes
      exact absurd hyes (by decide)
    unfold criminalHandleSubmit criminalOnSubmit
    rw [if_pos hv, if_neg (fun hc => by simp at hc)]

/-- C3, witness: the theorem evaluated on the empty draft and on a
concrete filled entry with probation "No" and empty probation details. -/
theorem C3_criminal_scenario_witness :
    (HostCall.updateData ∉ criminalHandleSubmit
        { hasCriminalOffense := "Yes", charges := [],
          isWillingToBackgroundCheck := "No" } ∧
     HostCall.nextStep ∉ criminalHandleSubmit
        { hasCriminalOffense := "Yes", charges := [],
          isWillingToBackgroundCheck := "No" }) ∧
    criminalHandleSubmit
        { hasCriminalOffense := "Yes", charges := [sampleCharge],
          isWillingToBackgroundCheck := "No" } =
      [HostCall.updateData, HostCall.nextStep] :=
  ⟨C3_criminal_scenario.1 _ rfl rfl,
   C3_criminal_scenario.2 sampleCharge "No" (by decide) (by decide) (by decide) rfl⟩

/-- C4: in the financial step with the wages checkbox checked (and the
base `totalMonthlyIncome` checks passing, without which zod would skip the
`superRefine` stage entirely): a blank amount puts the required-amount
issue on the `wages_amount` path and blocks submit; a non-blank amount
failing the currency regex puts the format issue on that path and blocks
submit; and `"1,500.00"` matches the currency regex, so the concrete
wages draft carrying it submits successfully. -/
theorem C4_wages_scenarios :
    (∀ d : FinancialFormData, d.wages_checked = true →
      financialBaseIssues d = [] → isBlank d.wages_amount = true →
      ({ path := "wages_amount", message := "Amount for wages is required." } : Issue)
          ∈ financialIssues d ∧
      financialHandleSubmit d = []) ∧
    (∀ (d : FinancialFormData) (a : String), d.wages_checked = true →
      financialBaseIssues d = [] → d.wages_amount = some a →
      isBlank (some a) = false → reMatch currencyRegex a = false →
      ({ path := "wages_amount", message := "Must be a valid currency amount." } : Issue)
          ∈ financialIssues d ∧
      financialHandleSubmit d = []) ∧
    (reMatch currencyRegex "1,500.00" = true ∧
     financialIssues (wagesDraft (some "1,500.00")) = [] ∧
     financialHandleSubmit (wagesDraft (some "1,500.00")) = [HostCall.toast]) := by
  have hfi : ∀ d : FinancialFormData, financialBaseIssues d = [] →
      financialIssues d = financialRefineIssues d := by
    intro d hb
    unfold financialIssues
    rw [hb]
    rfl
  have hwmem : ∀ (d : FinancialFormData) (issue : Issue),
      issue ∈ sourceIssues d IncomeSource.wages →
      issue ∈ financialRefineIssues d := by
    intro d issue hi
    unfold financialRefineIssues
    exact List.mem_flatten.mpr
      ⟨sourceIssues d IncomeSource.wages,
       List.mem_map_of_mem _ (by simp [incomeSources]), hi⟩
  have hblock : ∀ (d : FinancialFormData) (issue : Issue),
      issue ∈ financialIssues d → financialHandleSubmit d = [] := by
    intro d issue hi
    unfold financialHandleSubmit
    rw [if_neg]
    intro h
    rw [List.isEmpty_iff] at h
    rw [h] at hi
    cases hi
  refine ⟨?_, ?_, by decide⟩
  · intro d hw hb hblank
    have hsrc : sourceIssues d IncomeSource.wages =
        [{ path := "wages_amount", message := "Amount for wages is required." }] := by
      simp only [sourceIssues, checkedOf, amountOf]
      rw [hw, hblank]
      rfl
    have hmem : Issue.mk "wages_amount" "Amount for wages is required." ∈
        financialIssues d := by
      rw [hfi d hb]
      exact hwmem d _ (by rw [hsrc]; exact List.mem_singleton.mpr rfl)
    exact ⟨hmem, hblock d _ hmem⟩
  · intro d a hw hb ha hnb hre
    have hsrc : sourceIssues d IncomeSource.wages =
        [{ path := "wages_amount", message := "Must be a valid currency amount." }] := by
      simp only [sourceIssues, checkedOf, amountOf]
      rw [hw]
      simp only [ha, Option.getD_some, hnb, hre]
      rfl
    have hmem : Issue.mk "wages_amount" "Must be a valid currency amount." ∈
        financialIssues d := by
      rw [hfi d hb]
      exact hwmem d _ (by rw [hsrc]; exact List.mem_singleton.mpr rfl)
    exact ⟨hmem, hblock d _ hmem⟩

/-- C4, witness: the theorem evaluated on the concrete wages drafts with a
blank amount and with the non-currency amount "abc". -/
theorem C4_wages_scenarios_witness :
    (Issue.mk "wages_amount" "Amount for wages is required." ∈
        financialIssues (wagesDraft none) ∧
     financialHandleSubmit (wagesDraft none) = []) ∧
    (Issue.mk "wages_amount" "Must be a valid currency amount." ∈
        financialIssues (wagesDraft (some "abc")) ∧
     financialHandleSubmit (wagesDraft (some "abc")) = []) :=
  ⟨C4_wages_scenarios.1 (wagesDraft none) rfl (by decide) rfl,
   C4_wages_scenarios.2.1 (wagesDraft (some "abc")) "abc" rfl (by decide) rfl
     (by decide) (by decide)⟩

/-- C5, counterexample: the claim says no step other than children
enforces a minimum or maximum entry count, but the health step enforces a
minimum of one chronic-illness entry: turning the governing flag on with
an empty list auto-appends a default entry, the Remove control is not
rendered for a single-entry list, and a remove attempt on the single
entry leaves the list unchanged. -/
theorem C5_counterexample :
    healthEffect { hasChronicIllness := true, fields := [] } =
      { hasChronicIllness := true, fields := [defaultIllness] } ∧
    removeRendered { hasChronicIllness := true, fields := [defaultIllness] } 0 = false ∧
    healthStep { hasChronicIllness := true, fields := [defaultIllness] }
        (HealthAction.removeClick 0) =
      { hasChronicIllness := true, fields := [defaultIllness] } := by
  decide

/-- C5, amended: the children step caps its list at five — at five or more
entries the add control is disabled and an append attempt leaves the list
unchanged (still five entries) — and no other step caps additions: the
criminal and health add controls always append.  However, the health step
does enforce a minimum of one entry while its list UI is visible: its
Remove control is never rendered for a single-entry list. -/
theorem C5_amended_children_cap :
    (∀ fields : List Child, 5 ≤ fields.length →
      childrenAddDisabled fields = true ∧ childrenAddClick fields = fields) ∧
    (∀ fields : List Child, fields.length = 5 →
      (childrenAddClick fields).length = 5) ∧
    (∀ charges : List CriminalCharge,
      (criminalAddClick charges).length = charges.length + 1) ∧
    (∀ s : HealthListState, s.hasChronicIllness = true →
      (healthDispatch s HealthAction.addClick).fields.length = s.fields.length + 1) ∧
    (∀ (s : HealthListState) (i : Nat), s.fields.length = 1 →
      removeRendered s i = false) := by
  refine ⟨?_, ?_, ?_, ?_, ?_⟩
  · intro fields h
    have hd : childrenAddDisabled fields = true := decide_eq_true h
    refine ⟨hd, ?_⟩
    unfold childrenAddClick
    rw [hd]
    rfl
  · intro fields h
    have hd : childrenAddDisabled fields = true := decide_eq_true (by omega)
    unfold childrenAddClick
    rw [hd]
    simpa using h
  · intro charges
    unfold criminalAddClick
    simp
  · intro s h
    simp [healthDispatch, h]
  · intro s i h
    simp [removeRendered, h]

/-- C5, witness: the amended theorem evaluated on a five-entry children
list, the empty charges list, and concrete health list states. -/
theorem C5_amended_children_cap_witness :
    childrenAddDisabled (List.replicate 5 defaultChild) = true ∧
    childrenAddClick (List.replicate 5 defaultChild) = List.replicate 5 defaultChild ∧
    (childrenAddClick (List.replicate 5 defaultChild)).length = 5 ∧
    (criminalAddClick []).length = 1 ∧
    (healthDispatch { hasChronicIllness := true, fields := [] }
        HealthAction.addClick).fields.length = 1 ∧
    removeRendered { hasChronicIllness := true, fields := [defaultIllness] } 0 = false :=
  ⟨(C5_amended_children_cap.1 _ (by decide)).1,
   (C5_amended_children_cap.1 _ (by decide)).2,
   C5_amended_children_cap.2.1 _ (by decide),
   C5_amended_children_cap.2.2.1 [],
   C5_amended_children_cap.2.2.2.1 _ rfl,
   C5_amended_children_cap.2.2.2.2 _ 0 rfl⟩

/-- C6: for each dynamic-list step, appending the default entry onto the
empty list and then removing index 0 returns the list to empty, and the
visible index rendered for the entry at position i is i+1, recomputed
from the position (so positions past the end render nothing). -/
theorem C6_roundtrip_and_indices :
    criminalRemoveClick (criminalAddClick []) 0 = [] ∧
    fieldArrayRemove (childrenAddClick []) 0 = [] ∧
    fieldArrayRemove (fieldArrayAppend [] defaultIllness) 0 = [] ∧
    (∀ (fields : List CriminalCharge) (i : Nat),
      (chargeHeadings fields)[i]? =
        if i < fields.length then some ("Charge #" ++ toString (i + 1)) else none) ∧
    (∀ (fields : List Child) (i : Nat),
      (childHeadings fields)[i]? =
        if i < fields.length then some ("Child " ++ toString (i + 1)) else none) ∧
    (∀ (fields : List ChronicIllness) (i : Nat),
      (illnessHeadings fields)[i]? =
        if i < fields.length then some ("Chronic Illness " ++ toString (i + 1))
        else none) := by
  refine ⟨by decide, by decide, by decide, ?_, ?_, ?_⟩ <;>
  · intro fields i
    by_cases h : i < fields.length
    · simp [chargeHeadings, childHeadings, illnessHeadings, List.getElem?_map,
        List.getElem?_enum, List.getElem?_eq_getElem h, h]
    · simp [chargeHeadings, childHeadings, illnessHeadings, List.getElem?_map,
        List.getElem?_enum, List.getElem?_eq_none (Nat.le_of_not_lt h), h]

/-- C7: toggling entry i's `areTheyOnProbation` to "Yes" makes exactly
that entry's probation-details group visible, toggling it to "No" hides
exactly that group, and either toggle leaves the visibility of every
other entry j unchanged. -/
theorem C7_probation_toggle_frame (charges : List CriminalCharge) (i : Nat)
    (h : i < charges.length) :
    (chargeVisibilities (setChargeProbation charges i "Yes"))[i]? = some true ∧
    (chargeVisibilities (setChargeProbation charges i "No"))[i]? = some false ∧
    (∀ (v : String) (j : Nat), j ≠ i →
      (chargeVisibilities (setChargeProbation charges i v))[j]? =
        (chargeVisibilities charges)[j]?) := by
  have hc : charges[i]? = some charges[i] := List.getElem?_eq_getElem h
  have hset : ∀ v : String, setChargeProbation charges i v =
      charges.set i { charges[i] with areTheyOnProbation := v } := by
    intro v
    unfold setChargeProbation
    rw [hc]
  refine ⟨?_, ?_, ?_⟩
  · rw [hset "Yes"]
    simp [chargeVisibilities, List.getElem?_map, List.getElem?_set, h,
      probationDetailsVisible]
  · rw [hset "No"]
    simp [chargeVisibilities, List.getElem?_map, List.getElem?_set, h,
      probationDetailsVisible]
  · intro v j hj
    rw [hset v]
    simp [chargeVisibilities, List.getElem?_map,
      List.getElem?_set_ne (Ne.symm hj)]

/-- C7, witness: the theorem evaluated on a two-entry charges list,
toggling entry 0 and observing entry 1 unchanged. -/
theorem C7_probation_toggle_frame_witness :
    (chargeVisibilities
        (setChargeProbation [initialCharge, initialCharge] 0 "Yes"))[0]? = some true ∧
    (chargeVisibilities
        (setChargeProbation [initialCharge, initialCharge] 0 "No"))[0]? = some false ∧
    (chargeVisibilities
        (setChargeProbation [initialCharge, initialCharge] 0 "Yes"))[1]? =
      (chargeVisibilities [initialCharge, initialCharge])[1]? :=
  ⟨(C7_probation_toggle_frame _ 0 (by decide)).1,
   (C7_probation_toggle_frame _ 0 (by decide)).2.1,
   (C7_probation_toggle_frame _ 0 (by decide)).2.2 "Yes" 1 (by decide)⟩

/-- C8: hiding a conditional group does not clear its fields in the draft.
Substance step: setting the governing field to "No" hides the details
group but the toggle writes only that field, so toggling back to "Yes"
restores the original draft with the group visible again.  Financial
step: unchecking wages hides the amount input but leaves `wages_amount`
untouched, and re-checking re-reveals it.  Criminal step: toggling entry
i's probation field to "No" keeps every probation-detail value in that
entry, and toggling back to "Yes" yields exactly the original entry with
only the governing field changed. -/
theorem C8_hidden_values_persist :
    (∀ d : SubstanceUseHistoryFormData,
      substanceDetailsVisible (setHasSubstanceHistory d "No") = false ∧
      setHasSubstanceHistory (setHasSubstanceHistory d "No") "Yes" =
        { d with hasSubstanceHistory := "Yes" } ∧
      substanceDetailsVisible
        (setHasSubstanceHistory (setHasSubstanceHistory d "No") "Yes") = true) ∧
    (∀ d : FinancialFormData,
      wagesAmountVisible (setWagesChecked d false) = false ∧
      setWagesChecked (setWagesChecked d false) true =
        { d with wages_checked := true } ∧
      wagesAmountVisible (setWagesChecked (setWagesChecked d false) true) = true) ∧
    (∀ (charges : List CriminalCharge) (i : Nat) (h : i < charges.length),
      (setChargeProbation charges i "No")[i]? =
        some { charges[i] with areTheyOnProbation := "No" } ∧
      setChargeProbation (setChargeProbation charges i "No") i "Yes" =
        charges.set i { charges[i] with areTheyOnProbation := "Yes" }) := by
  refine ⟨fun d => ⟨rfl, rfl, rfl⟩, fun d => ⟨rfl, rfl, rfl⟩, ?_⟩
  intro charges i h
  have hc : charges[i]? = some charges[i] := List.getElem?_eq_getElem h
  have h1 : setChargeProbation charges i "No" =
      charges.set i { charges[i] with areTheyOnProbation := "No" } := by
    unfold setChargeProbation
    rw [hc]
  have h2 : (charges.set i { charges[i] with areTheyOnProbation := "No" })[i]? =
      some { charges[i] with areTheyOnProbation := "No" } := by
    simp [List.getElem?_set, h]
  refine ⟨by rw [h1]; exact h2, ?_⟩
  rw [h1]
  unfold setChargeProbation
  rw [h2]
  dsimp only
  rw [List.set_set]

/-- C8, witness: the theorem evaluated on the default substance draft, the
leftover financial draft, and a one-entry charges list with a filled
probation officer. -/
theorem C8_hidden_values_persist_witness :
    setHasSubstanceHistory (setHasSubstanceHistory substanceDefaults "No") "Yes" =
      { substanceDefaults with hasSubstanceHistory := "Yes" } ∧
    setWagesChecked (setWagesChecked leftoverDraft false) true =
      { leftoverDraft with wages_checked := true } ∧
    setChargeProbation (setChargeProbation [sampleCharge] 0 "No") 0 "Yes" =
      [sampleCharge].set 0 { sampleCharge with areTheyOnProbation := "Yes" } :=
  ⟨(C8_hidden_values_persist.1 substanceDefaults).2.1,
   (C8_hidden_values_persist.2.1 leftoverDraft).2.1,
   (C8_hidden_values_persist.2.2 [sampleCharge] 0 (by decide)).2⟩

/-- C9: in the health step, selecting "Yes" with an empty chronic-illness
list auto-appends one default entry; the Remove control is never rendered
for a single-entry list; and after any user action (plus the effect that
runs on the re-render), a state whose governing flag is true always has a
non-empty list — no action sequence can empty it while visible. -/
theorem C9_chronic_list_nonempty :
    healthStep { hasChronicIllness := false, fields := [] }
        (HealthAction.setChronic true) =
      { hasChronicIllness := true, fields := [defaultIllness] } ∧
    (∀ (s : HealthListState) (i : Nat), s.fields.length = 1 →
      removeRendered s i = false) ∧
    (∀ (s : HealthListState) (a : HealthAction),
      (healthStep s a).hasChronicIllness = true →
      (healthStep s a).fields ≠ []) := by
  refine ⟨by decide, ?_, ?_⟩
  · intro s i h
    simp [removeRendered, h]
  · intro s a h
    unfold healthStep healthEffect at h ⊢
    by_cases hc : (healthDispatch s a).hasChronicIllness = true ∧
        (healthDispatch s a).fields.length = 0
    · rw [if_pos hc] at h ⊢
      simp
    · rw [if_neg hc] at h ⊢
      intro hnil
      exact hc ⟨h, by rw [hnil]; rfl⟩

/-- C9, witness: the theorem evaluated on concrete health list states. -/
theorem C9_chronic_list_nonempty_witness :
    removeRendered { hasChronicIllness := true, fields := [defaultIllness] } 0 = false ∧
    (healthStep { hasChronicIllness := true, fields := [defaultIllness] }
        (HealthAction.removeClick 0)).fields ≠ [] :=
  ⟨C9_chronic_list_nonempty.2.1 _ 0 rfl,
   C9_chronic_list_nonempty.2.2 { hasChronicIllness := true, fields := [defaultIllness] }
     (HealthAction.removeClick 0) rfl⟩

/-- C10: an income source whose checkbox is false is not validated at all:
its `superRefine` iteration produces no issue, no issue of the whole
schema is attached to its amount path whatever string is stored there,
and a successful parse returns the draft unchanged, stale amount
included. -/
theorem C10_unchecked_amount_unvalidated (d : FinancialFormData)
    (s : IncomeSource) (h : checkedOf d s = false) :
    sourceIssues d s = [] ∧
    (∀ issue ∈ financialIssues d, issue.path ≠ amountPath s) ∧
    (∀ r : FinancialFormData, financialParse d = some r →
      r = d ∧ amountOf r s = amountOf d s) := by
  have hsrc := sourceIssues_unchecked d s h
  refine ⟨hsrc, ?_, ?_⟩
  · intro issue hmem
    unfold financialIssues at hmem
    by_cases hb : (financialBaseIssues d).isEmpty
    · rw [if_pos hb] at hmem
      unfold financialRefineIssues at hmem
      obtain ⟨l, hl, hil⟩ := List.mem_flatten.mp hmem
      obtain ⟨t, _, ht⟩ := List.mem_map.mp hl
      rw [← ht] at hil
      have hpath := sourceIssues_path d t issue hil
      rw [hpath]
      intro he
      have : t = s := amountPath_injective t s he
      rw [this, hsrc] at hil
      cases hil
    · rw [if_neg hb] at hmem
      rw [financialBaseIssues_path d issue hmem]
      exact fun he => amountPath_ne_total s he.symm
  · intro r hr
    unfold financialParse at hr
    split at hr
    · cases hr
      exact ⟨rfl, rfl⟩
    · cases hr

/-- C10, witness: the theorem evaluated on the leftover draft, whose
wages checkbox is unchecked while its amount field still holds the
non-currency string "not a number"; the draft nevertheless parses. -/
theorem C10_unchecked_amount_unvalidated_witness :
    sourceIssues leftoverDraft IncomeSource.wages = [] ∧
    financialParse leftoverDraft = some leftoverDraft :=
  ⟨(C10_unchecked_amount_unvalidated leftoverDraft IncomeSource.wages rfl).1,
   by decide⟩

end AfhfIntake
